import Mathlib

/-!
# The HTTP job gateway of geard (`http.go`)

A shallow embedding of `http.go`: the token extraction (`extractToken`), the handler adapter
(`JobRestHandler`), the eight job constructors (`ApiPutContainer`, ...) and the error writer
(`serveRequestError`).

Effects are explicit. A run of the handler built by `JobRestHandler` is the list of the effects it
performs, in order (`Event`): log lines, calls of `http.Error`, the call of the job constructor,
the call of `dispatcher.Dispatch` and the receive on the completion channel. The collaborators
declared outside `http.go` (the token codec, `NewIdentifier`, the dispatcher, the payload
validation) are parameters.
-/

set_option linter.dupNamespace false

namespace geard

/-! ## Go values -/

/-- A Go `error` value. Error values made by `errors.New` are pointers and `==` compares their
identity: `ref` is that identity, `text` is what `Error()` returns. Package-level error variables
have a `ref` of their own; `ref = 0` is used for the values made at the point of use. -/
structure GoError where
  ref : Nat
  text : String
deriving DecidableEq, Repr

/-- The method `Error()` of a Go error. -/
def GoError.Error (e : GoError) : String := e.text

/-- The call `errors.New(text)` at a point of use. -/
def errors.New (text : String) : GoError := ⟨0, text⟩

/-- The package variable `var ErrHandledResponse = errors.New("Request handled")`. -/
def ErrHandledResponse : GoError := ⟨1, "Request handled"⟩

/-- The library variable `io.EOF`. -/
def io.EOF : GoError := ⟨2, "EOF"⟩

/-- The library variable `io.ErrUnexpectedEOF`. -/
def io.ErrUnexpectedEOF : GoError := ⟨3, "unexpected EOF"⟩

/-- The constant `http.StatusNoContent`. -/
def http.StatusNoContent : Nat := 204
/-- The constant `http.StatusBadRequest`. -/
def http.StatusBadRequest : Nat := 400
/-- The constant `http.StatusForbidden`. -/
def http.StatusForbidden : Nat := 403
/-- The constant `http.StatusServiceUnavailable`. -/
def http.StatusServiceUnavailable : Nat := 503

/-- A byte of a request body. -/
abbrev Byte := Nat

/-! ## Requests and response sinks -/

/-- The part of `*http.Request` that `http.go` reads: the query of the URL (`r.URL.Query()`, a
`url.Values`) and the body (`nil` or the bytes the reader yields). -/
structure http.Request where
  Query : List (String × List String)
  Body : Option (List Byte)
deriving DecidableEq, Repr

/-- The type `*rest.Request`: the embedded `*http.Request` and the path parameters of the
matched route. -/
structure rest.Request where
  Request : http.Request
  PathParams : List (String × String)
deriving DecidableEq, Repr

/-- The method `PathParam(name)`: the value bound to `name` by the route, the empty string when
there is none. -/
def rest.Request.PathParam (r : rest.Request) (name : String) : String :=
  match r.PathParams.lookup name with
  | some v => v
  | none => ""

/-- The promoted field `r.Body` of the embedded `*http.Request`. -/
def rest.Request.Body (r : rest.Request) : Option (List Byte) := r.Request.Body

/-- A raw `http.ResponseWriter`, named by a handle. -/
structure http.ResponseWriter where
  handle : Nat
deriving DecidableEq, Repr

/-- The type `*rest.ResponseWriter`, the sink of the framework: it embeds the raw
`http.ResponseWriter`, which `w.ResponseWriter` selects. -/
structure rest.ResponseWriter where
  ResponseWriter : http.ResponseWriter
deriving DecidableEq, Repr

/-- The sink stored in a job: what the constructor wrote into the job's sink field, either the
framework value `w` or the raw value `w.ResponseWriter`. -/
inductive ResponseSink where
  | framework (w : rest.ResponseWriter)
  | raw (w : http.ResponseWriter)
deriving DecidableEq, Repr

/-! ## Tokens -/

/-- Modelled from the spec: the declaration of `TokenData` is outside `http.go`. The spec gives a
token the attributes user (`U`), resource-locator (`R`) and resource-type (`T`); `http.go` reads
`token.U` and notes `token.ResourceLocator() // token.R`, `token.ResourceType() // token.T`. -/
structure TokenData where
  U : String
  R : String
  T : String
deriving DecidableEq, Repr

/-- The accessor `ResourceLocator()`, `token.R` by the note in `ApiPutBuildImageAction`. -/
def TokenData.ResourceLocator (t : TokenData) : String := t.R

/-- The accessor `ResourceType()`, `token.T` by the note in `ApiPutBuildImageAction`. -/
def TokenData.ResourceType (t : TokenData) : String := t.T

/-- The type `RequestIdentifier`, an opaque comparable value; `[]` is its zero value. -/
abbrev RequestIdentifier := List Byte

/-- The type of the identifiers `NewIdentifier` returns (gear and repository ids). -/
abbrev Identifier := String

/-- The token codec, declared outside `http.go`: `NewTokenFromString`, `NewTokenFromMap` and the
method `RequestId`, each returning a value or an error. -/
structure TokenCodec where
  NewTokenFromString : String → Except GoError TokenData
  NewTokenFromMap : List (String × List String) → Except GoError TokenData
  RequestId : TokenData → Except GoError RequestIdentifier

/-- The type `apiRequestError`. -/
structure apiRequestError where
  Error : GoError
  Message : String
  Status : Nat
deriving DecidableEq, Repr

/-- The three named results of `extractToken`: `token` (`nil` is `none`), `id` and `rerr`. -/
structure ExtractResult where
  token : Option TokenData
  id : RequestIdentifier
  rerr : Option apiRequestError
deriving DecidableEq, Repr

/-- The function `extractToken`. The named results start at their zero values; each `return`
yields them as they stand. -/
def extractToken (codec : TokenCodec) (segment : String) (r : http.Request) : ExtractResult :=
  let parsed : Except apiRequestError TokenData :=
    if segment = "__test__" then
      match codec.NewTokenFromMap r.Query with
      | .error err => .error ⟨err, "Invalid test query: " ++ err.Error, http.StatusForbidden⟩
      | .ok t => .ok t
    else
      match codec.NewTokenFromString segment with
      | .error err => .error ⟨err, "Invalid authorization token", http.StatusForbidden⟩
      | .ok t => .ok t
  match parsed with
  | .error rerr => ⟨none, [], some rerr⟩
  | .ok token =>
    match codec.RequestId token with
    | .error err =>
      ⟨some token, [], some ⟨err, "Token is missing data: " ++ err.Error, http.StatusBadRequest⟩⟩
    | .ok i => ⟨some token, i, none⟩

/-! ## Jobs -/

/-- A pair of ports of a create-container payload. -/
structure PortPair where
  Internal : Int
  External : Int
deriving DecidableEq, Repr

/-- Modelled from the spec: the declaration of `extendedCreateContainerData` is outside
`http.go`. `Ports` is the slice `http.go` reads and sets (`none` is the `nil` slice); the spec
says the additional fields of the body are forwarded opaquely, they are kept in `Other`. -/
structure extendedCreateContainerData where
  Ports : Option (List PortPair)
  Other : List (String × String)
deriving DecidableEq, Repr

/-- Modelled from the spec: the declaration of `extendedCreateKeysData` is outside `http.go` and
the spec leaves its content to the payload; it is kept as the uninterpreted list of its decoded
fields. -/
structure extendedCreateKeysData where
  Fields : List (String × String)
deriving DecidableEq, Repr

/-- The jobs `http.go` builds, one constructor for each struct literal, the fields in the order
of the literal (`jobRequest{reqid}` first). -/
inductive Job where
  | createContainerJobRequest (reqid : RequestIdentifier) (gearId : Identifier) (user : String)
      (image : String) (sink : ResponseSink) (data : extendedCreateContainerData)
  | containerLogJobRequest (reqid : RequestIdentifier) (gearId : Identifier) (user : String)
      (sink : ResponseSink)
  | createKeysJobRequest (reqid : RequestIdentifier) (user : String) (sink : ResponseSink)
      (data : extendedCreateKeysData)
  | createRepositoryJobRequest (reqid : RequestIdentifier) (repositoryId : Identifier)
      (user : String) (cloneSource : String) (image : String) (sink : ResponseSink)
  | startedContainerStateJobRequest (reqid : RequestIdentifier) (gearId : Identifier)
      (user : String) (sink : ResponseSink)
  | stoppedContainerStateJobRequest (reqid : RequestIdentifier) (gearId : Identifier)
      (user : String) (sink : ResponseSink)
  | buildImageJobRequest (reqid : RequestIdentifier) (source : String) (baseImage : String)
      (tag : String) (sink : ResponseSink)
  | contentJobRequest (reqid : RequestIdentifier) (type : String) (locator : String)
      (subpath : String) (sink : ResponseSink)
deriving DecidableEq, Repr

/-- The two results `(Job, error)` of a job constructor. -/
abbrev JobResult := Option Job × Option GoError

/-- The type `JobHandler`. -/
abbrev JobHandler :=
  RequestIdentifier → TokenData → rest.ResponseWriter → rest.Request → JobResult

/-- The dispatcher, declared outside `http.go`: `Dispatch(job)` returns the completion channel
(named by a handle) and an error or `nil`. -/
structure Dispatcher where
  Dispatch : Option Job → Nat × Option GoError

/-! ## The handler adapter -/

/-- An effect of the handler built by `JobRestHandler`. -/
inductive Event where
  | logPrintln (errt : apiRequestError)
  | logPrint (message : String) (err : GoError)
  | httpError (message : String) (code : Nat)
  | callHandler (id : RequestIdentifier) (token : TokenData)
  | callDispatch (job : Option Job)
  | receive (wait : Nat)
  | nilDereference
deriving DecidableEq, Repr

/-- The function `serveRequestError`: a log line, then `http.Error(w, err.Message, err.Status)`. -/
def serveRequestError (err : apiRequestError) : List Event :=
  [.logPrint err.Message err.Error, .httpError err.Message err.Status]

/-- The function the call `JobRestHandler(dispatcher, handler)` returns, applied to `w` and `r`:
the effects it performs, in order. `ErrRanToCompletion` is the package variable of that name,
declared outside `http.go`. -/
def JobRestHandler (codec : TokenCodec) (ErrRanToCompletion : GoError) (dispatcher : Dispatcher)
    (handler : JobHandler) (w : rest.ResponseWriter) (r : rest.Request) : List Event :=
  let res := extractToken codec (r.PathParam "token") r.Request
  match res.rerr with
  | some errt =>
    [.logPrintln errt,
     .httpError "Token is required - pass /token/<token>/<path>" http.StatusForbidden]
  | none =>
    match res.token with
    | none => [.nilDereference]
    | some token =>
      if token.U = "" then
        [.httpError "All requests must be associated with a user" http.StatusBadRequest]
      else
        .callHandler res.id token ::
        match handler res.id token w r with
        | (_, some errh) =>
          if errh ≠ ErrHandledResponse then
            [.httpError ("Invalid request: " ++ errh.Error ++ "\n") http.StatusBadRequest]
          else []
        | (job, none) =>
          .callDispatch job ::
          match dispatcher.Dispatch job with
          | (wait, errd) =>
            if errd = some ErrRanToCompletion then
              [.httpError ErrRanToCompletion.Error http.StatusNoContent]
            else
              match errd with
              | some e =>
                serveRequestError ⟨e, e.Error, http.StatusServiceUnavailable⟩
              | none => [.receive wait]

/-- The responses the gateway itself writes in a run: the `(message, status)` of each call of
`http.Error`, in order. -/
def responses : List Event → List (String × Nat)
  | [] => []
  | .httpError m c :: es => (m, c) :: responses es
  | _ :: es => responses es

/-- Whether a run calls the job constructor. -/
def callsHandler (es : List Event) : Bool :=
  es.any fun e => match e with
    | .callHandler _ _ => true
    | _ => false

/-- Whether a run calls `dispatcher.Dispatch`. -/
def callsDispatch (es : List Event) : Bool :=
  es.any fun e => match e with
    | .callDispatch _ => true
    | _ => false

/-- Whether a run waits on a completion channel. -/
def waits (es : List Event) : Bool :=
  es.any fun e => match e with
    | .receive _ => true
    | _ => false

/-! ## The stream decoder of `encoding/json`

`ApiPutContainer` and `ApiPutKeys` read the body with `json.NewDecoder(...).Decode(&data)`.
`Decode` first finds the extent of the next JSON value in the stream (`readValue`, driven by the
byte-by-byte scanner of `scanner.go`) and then unmarshals exactly those bytes into the target.
The scanner is embedded state by state; the unmarshalling into a payload type declared outside
`http.go` is a parameter. The scanner is the one of the Go releases of the time of `http.go`:
it has no limit on the nesting depth. -/

/-- The scanner's `isSpace`. -/
def json.isSpace (c : Byte) : Bool := c = 32 || c = 9 || c = 13 || c = 10

/-- Whether `c` is an ASCII digit. -/
def json.isDigit (c : Byte) : Bool := 48 ≤ c && c ≤ 57

/-- Whether `c` is a hexadecimal digit. -/
def json.isHex (c : Byte) : Bool :=
  (48 ≤ c && c ≤ 57) || (97 ≤ c && c ≤ 102) || (65 ≤ c && c ≤ 70)

/-- The text of one hexadecimal digit. -/
def json.hexDigit (n : Nat) : String :=
  String.singleton (if n < 10 then Char.ofNat (48 + n) else Char.ofNat (87 + n))

/-- The function `quoteChar` of `scanner.go`, the byte as it is shown in a syntax error. -/
def json.quoteChar (c : Byte) : String :=
  let q := String.singleton (Char.ofNat 39)
  let bs := String.singleton (Char.ofNat 92)
  if c = 39 then q ++ bs ++ q ++ q
  else if c = 34 then q ++ String.singleton (Char.ofNat 34) ++ q
  else if c = 92 then q ++ bs ++ bs ++ q
  else if c = 7 then q ++ bs ++ "a" ++ q
  else if c = 8 then q ++ bs ++ "b" ++ q
  else if c = 12 then q ++ bs ++ "f" ++ q
  else if c = 10 then q ++ bs ++ "n" ++ q
  else if c = 13 then q ++ bs ++ "r" ++ q
  else if c = 9 then q ++ bs ++ "t" ++ q
  else if c = 11 then q ++ bs ++ "v" ++ q
  else if c < 32 || c = 127 then q ++ bs ++ "x" ++ hexDigit (c / 16) ++ hexDigit (c % 16) ++ q
  else if (128 ≤ c && c < 160) || c = 173 then
    q ++ bs ++ "u00" ++ hexDigit (c / 16) ++ hexDigit (c % 16) ++ q
  else q ++ String.singleton (Char.ofNat c) ++ q

/-- The error `&SyntaxError{...}` the scanner makes at byte `c`. -/
def json.SyntaxError (c : Byte) (context : String) : GoError :=
  ⟨0, "invalid character " ++ json.quoteChar c ++ " " ++ context⟩

/-- The entries of the scanner's `parseState` stack. -/
inductive json.ParseState where
  | parseObjectKey
  | parseObjectValue
  | parseArrayValue
deriving DecidableEq, Repr

/-- The op codes the scanner's step functions return. -/
inductive json.Op where
  | scanContinue
  | scanBeginLiteral
  | scanBeginObject
  | scanObjectKey
  | scanObjectValue
  | scanEndObject
  | scanBeginArray
  | scanArrayValue
  | scanEndArray
  | scanSkipSpace
  | scanEnd
  | scanError
deriving DecidableEq, Repr

/-- The step functions of `scanner.go`, as the values the field `step` takes. -/
inductive json.Step where
  | stateBeginValueOrEmpty
  | stateBeginValue
  | stateBeginStringOrEmpty
  | stateBeginString
  | stateEndValue
  | stateEndTop
  | stateInString
  | stateInStringEsc
  | stateInStringEscU
  | stateInStringEscU1
  | stateInStringEscU12
  | stateInStringEscU123
  | stateNeg
  | state1
  | state0
  | stateDot
  | stateDot0
  | stateE
  | stateESign
  | stateE0
  | stateT
  | stateTr
  | stateTru
  | stateF
  | stateFa
  | stateFal
  | stateFals
  | stateN
  | stateNu
  | stateNul
  | stateError
deriving DecidableEq, Repr

/-- The scanner: the next step function, the stack `parseState` (its top is the head of the
list) and the recorded error. -/
structure json.Scanner where
  step : json.Step
  parseState : List json.ParseState
  err : Option GoError
deriving DecidableEq, Repr

namespace json.Scanner

/-- The method `reset`. -/
def reset : Scanner := ⟨.stateBeginValue, [], none⟩

/-- The method `error`: records the error, makes every later step fail. -/
def error (s : Scanner) (c : Byte) (context : String) : Scanner × Op :=
  (⟨.stateError, s.parseState, some (SyntaxError c context)⟩, .scanError)

/-- Continue in step function `st`. -/
def goto (s : Scanner) (st : Step) (op : Op) : Scanner × Op :=
  (⟨st, s.parseState, s.err⟩, op)

/-- The method `pushParseState`, followed by the assignment of the next step. -/
def push (s : Scanner) (p : ParseState) (st : Step) (op : Op) : Scanner × Op :=
  (⟨st, p :: s.parseState, s.err⟩, op)

/-- The method `popParseState`. -/
def popParseState (s : Scanner) : Scanner :=
  match s.parseState.tail with
  | [] => ⟨.stateEndTop, [], s.err⟩
  | ps => ⟨.stateEndValue, ps, s.err⟩

/-- The step function `stateEndTop`: the error it records for a byte that is not white space
does not change its result, which is `scanEnd`. -/
def stateEndTop (s : Scanner) (c : Byte) : Scanner × Op :=
  if !isSpace c then ((s.error c "after top-level value").1, .scanEnd)
  else (s, .scanEnd)

/-- The step function `stateEndValue`. -/
def stateEndValue (s : Scanner) (c : Byte) : Scanner × Op :=
  match s.parseState with
  | [] => stateEndTop ⟨.stateEndTop, [], s.err⟩ c
  | ps :: rest =>
    if isSpace c then s.goto .stateEndValue .scanSkipSpace
    else
      match ps with
      | .parseObjectKey =>
        if c = 58 then (⟨.stateBeginValue, .parseObjectValue :: rest, s.err⟩, .scanObjectKey)
        else s.error c "after object key"
      | .parseObjectValue =>
        if c = 44 then (⟨.stateBeginString, .parseObjectKey :: rest, s.err⟩, .scanObjectValue)
        else if c = 125 then (s.popParseState, .scanEndObject)
        else s.error c "after object key:value pair"
      | .parseArrayValue =>
        if c = 44 then s.goto .stateBeginValue .scanArrayValue
        else if c = 93 then (s.popParseState, .scanEndArray)
        else s.error c "after array element"

/-- The step function `stateBeginValue`. -/
def stateBeginValue (s : Scanner) (c : Byte) : Scanner × Op :=
  if isSpace c then (s, .scanSkipSpace)
  else if c = 123 then s.push .parseObjectKey .stateBeginStringOrEmpty .scanBeginObject
  else if c = 91 then s.push .parseArrayValue .stateBeginValueOrEmpty .scanBeginArray
  else if c = 34 then s.goto .stateInString .scanBeginLiteral
  else if c = 45 then s.goto .stateNeg .scanBeginLiteral
  else if c = 48 then s.goto .state0 .scanBeginLiteral
  else if c = 116 then s.goto .stateT .scanBeginLiteral
  else if c = 102 then s.goto .stateF .scanBeginLiteral
  else if c = 110 then s.goto .stateN .scanBeginLiteral
  else if 49 ≤ c && c ≤ 57 then s.goto .state1 .scanBeginLiteral
  else s.error c "looking for beginning of value"

/-- The step function `stateBeginValueOrEmpty`. -/
def stateBeginValueOrEmpty (s : Scanner) (c : Byte) : Scanner × Op :=
  if isSpace c then (s, .scanSkipSpace)
  else if c = 93 then stateEndValue s c
  else stateBeginValue s c

/-- The step function `stateBeginString`. -/
def stateBeginString (s : Scanner) (c : Byte) : Scanner × Op :=
  if isSpace c then (s, .scanSkipSpace)
  else if c = 34 then s.goto .stateInString .scanBeginLiteral
  else s.error c "looking for beginning of object key string"

/-- The step function `stateBeginStringOrEmpty`. -/
def stateBeginStringOrEmpty (s : Scanner) (c : Byte) : Scanner × Op :=
  if isSpace c then (s, .scanSkipSpace)
  else if c = 125 then
    stateEndValue ⟨s.step, .parseObjectValue :: s.parseState.tail, s.err⟩ c
  else stateBeginString s c

/-- The step function `stateInString`. -/
def stateInString (s : Scanner) (c : Byte) : Scanner × Op :=
  if c = 34 then s.goto .stateEndValue .scanContinue
  else if c = 92 then s.goto .stateInStringEsc .scanContinue
  else if c < 32 then s.error c "in string literal"
  else (s, .scanContinue)

/-- The step function `stateInStringEsc`. -/
def stateInStringEsc (s : Scanner) (c : Byte) : Scanner × Op :=
  if c = 98 || c = 102 || c = 110 || c = 114 || c = 116 || c = 92 || c = 47 || c = 34 then
    s.goto .stateInString .scanContinue
  else if c = 117 then s.goto .stateInStringEscU .scanContinue
  else s.error c "in string escape code"

/-- The step functions `stateInStringEscU` to `stateInStringEscU123`, `next` the state after a
hexadecimal digit. -/
def stateInStringEscHex (s : Scanner) (c : Byte) (next : Step) : Scanner × Op :=
  if isHex c then s.goto next .scanContinue
  else s.error c "in \\u hexadecimal character escape"

/-- The step function `stateNeg`. -/
def stateNeg (s : Scanner) (c : Byte) : Scanner × Op :=
  if c = 48 then s.goto .state0 .scanContinue
  else if 49 ≤ c && c ≤ 57 then s.goto .state1 .scanContinue
  else s.error c "in numeric literal"

/-- The step function `state0`. -/
def state0 (s : Scanner) (c : Byte) : Scanner × Op :=
  if c = 46 then s.goto .stateDot .scanContinue
  else if c = 101 || c = 69 then s.goto .stateE .scanContinue
  else stateEndValue s c

/-- The step function `state1`. -/
def state1 (s : Scanner) (c : Byte) : Scanner × Op :=
  if isDigit c then s.goto .state1 .scanContinue
  else state0 s c

/-- The step function `stateDot`. -/
def stateDot (s : Scanner) (c : Byte) : Scanner × Op :=
  if isDigit c then s.goto .stateDot0 .scanContinue
  else s.error c "after decimal point in numeric literal"

/-- The step function `stateDot0`. -/
def stateDot0 (s : Scanner) (c : Byte) : Scanner × Op :=
  if isDigit c then (s, .scanContinue)
  else if c = 101 || c = 69 then s.goto .stateE .scanContinue
  else stateEndValue s c

/-- The step function `stateESign`. -/
def stateESign (s : Scanner) (c : Byte) : Scanner × Op :=
  if isDigit c then s.goto .stateE0 .scanContinue
  else s.error c "in exponent of numeric literal"

/-- The step function `stateE`. -/
def stateE (s : Scanner) (c : Byte) : Scanner × Op :=
  if c = 43 || c = 45 then s.goto .stateESign .scanContinue
  else stateESign s c

/-- The step function `stateE0`. -/
def stateE0 (s : Scanner) (c : Byte) : Scanner × Op :=
  if isDigit c then (s, .scanContinue)
  else stateEndValue s c

/-- The step functions of the literals `true`, `false` and `null`: the byte `want` leads to
`next`, any other byte is an error. -/
def stateLiteral (s : Scanner) (c : Byte) (want : Byte) (next : Step) (context : String) :
    Scanner × Op :=
  if c = want then s.goto next .scanContinue
  else s.error c context

/-- The text of the context of an error inside a literal. -/
def literalContext (lit : String) (want : String) : String :=
  let q := String.singleton (Char.ofNat 39)
  "in literal " ++ lit ++ " (expecting " ++ q ++ want ++ q ++ ")"

/-- The call `s.step(s, c)`: the step function the field `step` holds, applied to `c`. -/
def next (s : Scanner) (c : Byte) : Scanner × Op :=
  match s.step with
  | .stateBeginValueOrEmpty => stateBeginValueOrEmpty s c
  | .stateBeginValue => stateBeginValue s c
  | .stateBeginStringOrEmpty => stateBeginStringOrEmpty s c
  | .stateBeginString => stateBeginString s c
  | .stateEndValue => stateEndValue s c
  | .stateEndTop => stateEndTop s c
  | .stateInString => stateInString s c
  | .stateInStringEsc => stateInStringEsc s c
  | .stateInStringEscU => stateInStringEscHex s c .stateInStringEscU1
  | .stateInStringEscU1 => stateInStringEscHex s c .stateInStringEscU12
  | .stateInStringEscU12 => stateInStringEscHex s c .stateInStringEscU123
  | .stateInStringEscU123 => stateInStringEscHex s c .stateInString
  | .stateNeg => stateNeg s c
  | .state1 => state1 s c
  | .state0 => state0 s c
  | .stateDot => stateDot s c
  | .stateDot0 => stateDot0 s c
  | .stateE => stateE s c
  | .stateESign => stateESign s c
  | .stateE0 => stateE0 s c
  | .stateT => stateLiteral s c 114 .stateTr (literalContext "true" "r")
  | .stateTr => stateLiteral s c 117 .stateTru (literalContext "true" "u")
  | .stateTru => stateLiteral s c 101 .stateEndValue (literalContext "true" "e")
  | .stateF => stateLiteral s c 97 .stateFa (literalContext "false" "a")
  | .stateFa => stateLiteral s c 108 .stateFal (literalContext "false" "l")
  | .stateFal => stateLiteral s c 115 .stateFals (literalContext "false" "s")
  | .stateFals => stateLiteral s c 101 .stateEndValue (literalContext "false" "e")
  | .stateN => stateLiteral s c 117 .stateNu (literalContext "null" "u")
  | .stateNu => stateLiteral s c 108 .stateNul (literalContext "null" "l")
  | .stateNul => stateLiteral s c 108 .stateEndValue (literalContext "null" "l")
  | .stateError => (s, .scanError)

end json.Scanner

/-- The function `nonSpace` of `stream.go`: whether the buffer holds a byte that is not white
space. -/
def json.nonSpace (buf : List Byte) : Bool := buf.any fun c => !json.isSpace c

/-- The loop of `Decoder.readValue` over the bytes the reader still yields: `s` is the scanner,
`n` the number of bytes scanned so far and `buf` everything read. With a step that returns
`scanEnd` the value ends before the current byte; after `scanEndObject` or `scanEndArray` a space byte is
invented to see whether the top-level value is complete; at the end of the input a value that a
space would end is complete, otherwise the error is `io.ErrUnexpectedEOF` when something other
than white space was read and `io.EOF` when not. -/
def json.readValueLoop (buf : List Byte) (s : json.Scanner) (n : Nat) :
    List Byte → Except GoError Nat
  | [] =>
    if (s.next 32).2 = .scanEnd then .ok n
    else if json.nonSpace buf then .error io.ErrUnexpectedEOF
    else .error io.EOF
  | c :: rest =>
    match s.next c with
    | (_, .scanEnd) => .ok n
    | (s1, .scanEndObject) =>
      if (json.Scanner.stateEndValue s1 32).2 = .scanEnd then .ok (n + 1)
      else json.readValueLoop buf s1 (n + 1) rest
    | (s1, .scanEndArray) =>
      if (json.Scanner.stateEndValue s1 32).2 = .scanEnd then .ok (n + 1)
      else json.readValueLoop buf s1 (n + 1) rest
    | (s1, .scanError) =>
      match s1.err with
      | some e => .error e
      | none => .error (json.SyntaxError c "")
    | (s1, _) => json.readValueLoop buf s1 (n + 1) rest

/-- The method `Decoder.readValue` on a decoder that has read nothing yet: the length of the
first JSON value of the stream (its leading white space included), or the error. -/
def json.readValue (stream : List Byte) : Except GoError Nat :=
  json.readValueLoop stream json.Scanner.reset 0 stream

/-- The call `json.NewDecoder(stream).Decode(&v)`: `readValue`, then the unmarshalling of exactly
the bytes of that value into the target `v`. The result is the target after the call, or the
error; an error of `readValue` (`io.EOF` among them) leaves the target as it was. `unmarshal` is
the unmarshalling into the payload type. -/
def json.Decode {α : Type} (unmarshal : List Byte → α → Except GoError α) (stream : List Byte)
    (v : α) : Except GoError α :=
  match json.readValue stream with
  | .error e => .error e
  | .ok n => unmarshal (stream.take n) v

/-- The reader `io.LimitReader(r, n)`: it yields the first `n` bytes of `r`, then reports that
the input has ended. -/
def io.LimitReader (r : List Byte) (n : Nat) : List Byte := r.take n

/-! ## The job constructors -/

/-- The function `ApiPutContainer`. `NewIdentifier` and the unmarshalling of the payload are
declared outside `http.go`. -/
def ApiPutContainer (NewIdentifier : String → Except GoError Identifier)
    (unmarshal : List Byte → extendedCreateContainerData → Except GoError extendedCreateContainerData)
    (reqid : RequestIdentifier) (token : TokenData) (w : rest.ResponseWriter)
    (r : rest.Request) : JobResult :=
  match NewIdentifier token.ResourceLocator with
  | .error errg => (none, some errg)
  | .ok gearId =>
    if token.ResourceType = "" then
      (none, some (errors.New "A container must have an image identifier"))
    else
      let data : extendedCreateContainerData := ⟨none, []⟩
      let decoded : Except GoError extendedCreateContainerData :=
        match r.Body with
        | none => .ok data
        | some body =>
          match json.Decode unmarshal body data with
          | .error err => if err ≠ io.EOF then .error err else .ok data
          | .ok d => .ok d
      match decoded with
      | .error err => (none, some err)
      | .ok data =>
        let data : extendedCreateContainerData :=
          if data.Ports = none then ⟨some [], data.Other⟩ else data
        (some (.createContainerJobRequest reqid gearId token.U token.ResourceType
          (.framework w) data), none)

/-- The function `ApiGetContainerLog`. -/
def ApiGetContainerLog (NewIdentifier : String → Except GoError Identifier)
    (reqid : RequestIdentifier) (token : TokenData) (w : rest.ResponseWriter)
    (_r : rest.Request) : JobResult :=
  match NewIdentifier token.ResourceLocator with
  | .error errg => (none, some errg)
  | .ok gearId => (some (.containerLogJobRequest reqid gearId token.U (.raw w.ResponseWriter)), none)

/-- The function `ApiPutKeys`. The unmarshalling of the payload and its method `Check` are
declared outside `http.go`. -/
def ApiPutKeys
    (unmarshal : List Byte → extendedCreateKeysData → Except GoError extendedCreateKeysData)
    (Check : extendedCreateKeysData → Option GoError)
    (reqid : RequestIdentifier) (token : TokenData) (w : rest.ResponseWriter)
    (r : rest.Request) : JobResult :=
  let data : extendedCreateKeysData := ⟨[]⟩
  let decoded : Except GoError extendedCreateKeysData :=
    match r.Body with
    | none => .ok data
    | some body =>
      match json.Decode unmarshal (io.LimitReader body (100 * 1024)) data with
      | .error err => if err ≠ io.EOF then .error err else .ok data
      | .ok d => .ok d
  match decoded with
  | .error err => (none, some err)
  | .ok data =>
    match Check data with
    | some err => (none, some err)
    | none => (some (.createKeysJobRequest reqid token.U (.framework w) data), none)

/-- The function `ApiPutRepository`. -/
def ApiPutRepository (NewIdentifier : String → Except GoError Identifier)
    (reqid : RequestIdentifier) (token : TokenData) (w : rest.ResponseWriter)
    (_r : rest.Request) : JobResult :=
  match NewIdentifier token.ResourceLocator with
  | .error errg => (none, some errg)
  | .ok repositoryId =>
    (some (.createRepositoryJobRequest reqid repositoryId token.U "ccoleman/githost"
      token.ResourceType (.framework w)), none)

/-- The function `ApiPutContainerAction`. -/
def ApiPutContainerAction (NewIdentifier : String → Except GoError Identifier)
    (reqid : RequestIdentifier) (token : TokenData) (w : rest.ResponseWriter)
    (r : rest.Request) : JobResult :=
  let action := r.PathParam "action"
  match NewIdentifier token.ResourceLocator with
  | .error errg => (none, some errg)
  | .ok gearId =>
    if action = "started" then
      (some (.startedContainerStateJobRequest reqid gearId token.U (.framework w)), none)
    else if action = "stopped" then
      (some (.stoppedContainerStateJobRequest reqid gearId token.U (.framework w)), none)
    else
      (none, some (errors.New "You must provide a valid action for this container to take"))

/-- The function `ApiPutBuildImageAction`. -/
def ApiPutBuildImageAction (reqid : RequestIdentifier) (token : TokenData)
    (w : rest.ResponseWriter) (_r : rest.Request) : JobResult :=
  if token.ResourceLocator = "" then
    (none, some (errors.New "You must specifiy the application source to build"))
  else if token.ResourceType = "" then
    (none, some (errors.New "You must specify a base image"))
  else
    let source := token.ResourceLocator
    let baseImage := token.ResourceType
    let tag := token.U
    (some (.buildImageJobRequest reqid source baseImage tag (.framework w)), none)

/-- The function `ApiGetContent`. -/
def ApiGetContent (reqid : RequestIdentifier) (token : TokenData) (w : rest.ResponseWriter)
    (r : rest.Request) : JobResult :=
  if token.ResourceLocator = "" then
    (none, some (errors.New "You must specify the location of the content you want to access"))
  else if token.ResourceType = "" then
    (none, some (errors.New "You must specify the type of the content you want to access"))
  else
    (some (.contentJobRequest reqid token.ResourceType token.ResourceLocator (r.PathParam "*")
      (.framework w)), none)

/-- The sink stored in a job. -/
def Job.sink : Job → ResponseSink
  | .createContainerJobRequest _ _ _ _ s _ => s
  | .containerLogJobRequest _ _ _ s => s
  | .createKeysJobRequest _ _ s _ => s
  | .createRepositoryJobRequest _ _ _ _ _ s => s
  | .startedContainerStateJobRequest _ _ _ s => s
  | .stoppedContainerStateJobRequest _ _ _ s => s
  | .buildImageJobRequest _ _ _ _ s => s
  | .contentJobRequest _ _ _ _ s => s

/-- Whether the sink is the raw HTTP sink. -/
def ResponseSink.isRaw : ResponseSink → Bool
  | .raw _ => true
  | .framework _ => false

/-- The token the `:token` segment parses to: the result of the codec on the branch
`extractToken` takes, `NewTokenFromMap` on the query for the segment `__test__` and
`NewTokenFromString` on the segment otherwise. -/
def parsedToken (codec : TokenCodec) (r : rest.Request) : Except GoError TokenData :=
  if r.PathParam "token" = "__test__" then codec.NewTokenFromMap r.Request.Query
  else codec.NewTokenFromString (r.PathParam "token")

/-! ## Collaborators for the evaluations

Concrete collaborators on which the handler and the constructors are evaluated. -/

/-- The first value of a key of a `url.Values`, the empty string when there is none
(`Values.Get`). -/
def urlValuesGet (q : List (String × List String)) (key : String) : String :=
  match q.lookup key with
  | some (v :: _) => v
  | _ => ""

/-- Modelled from the spec: `NewTokenFromMap` is declared outside `http.go`. The spec has the
test mode parse the token from the query parameters, `U`, `R` and `T` in its scenario
`/token/__test__/content?U=u&R=a/b&T=text`. -/
def NewTokenFromMap (q : List (String × List String)) : Except GoError TokenData :=
  .ok ⟨urlValuesGet q "U", urlValuesGet q "R", urlValuesGet q "T"⟩

/-- A codec for the evaluations: the segment `tok-u` is the token of user `u` for the resource
`c1` of type `img-x`, the segment `tok-anon` a token without user, the segment `tok-noid` a
token of user `u` from which no request id derives, the segment `tok-anon-noid` a token with
neither, any other segment is refused; the request id of a token is the bytes of its locator,
and cannot be derived when the locator is empty. -/
def sampleCodec : TokenCodec where
  NewTokenFromString := fun seg =>
    if seg = "tok-u" then .ok ⟨"u", "c1", "img-x"⟩
    else if seg = "tok-anon" then .ok ⟨"", "c1", "img-x"⟩
    else if seg = "tok-noid" then .ok ⟨"u", "", "img-x"⟩
    else if seg = "tok-anon-noid" then .ok ⟨"", "", "img-x"⟩
    else .error (errors.New "token is not valid")
  NewTokenFromMap := NewTokenFromMap
  RequestId := fun t =>
    if t.R = "" then .error (errors.New "no request id") else .ok (t.R.toList.map Char.toNat)

/-- The variable `ErrRanToCompletion` for the evaluations. -/
def sampleErrRanToCompletion : GoError := ⟨4, "ran to completion"⟩

/-- A dispatcher for the evaluations: it reports a job of user `done` as run to completion,
refuses a job of user `busy` and accepts every other job on channel `7`. -/
def sampleDispatcher : Dispatcher where
  Dispatch := fun job =>
    match job with
    | some (.buildImageJobRequest _ _ _ tag _) =>
      if tag = "done" then (0, some sampleErrRanToCompletion)
      else if tag = "busy" then (0, some (errors.New "queue is full"))
      else (7, none)
    | _ => (7, none)

/-- An identifier check for the evaluations: every non-empty string is an identifier. -/
def sampleNewIdentifier (s : String) : Except GoError Identifier :=
  if s = "" then .error (errors.New "identifier is empty") else .ok s

/-- A response writer for the evaluations. -/
def sampleWriter : rest.ResponseWriter := ⟨⟨1⟩⟩

/-- The request with the given `:token` segment, query and body, and no other path parameter. -/
def sampleRequest (segment : String) (q : List (String × List String))
    (body : Option (List Byte)) : rest.Request :=
  ⟨⟨q, body⟩, [("token", segment)]⟩

/-- The request of the test mode for the user `u`, the source `src` and the base image `base`. -/
def buildRequest (u : String) : rest.Request :=
  sampleRequest "__test__" [("U", [u]), ("R", ["src"]), ("T", ["base"])] none

/-- A job constructor that has written the response itself. -/
def handledHandler : JobHandler := fun _ _ _ _ => (none, some ErrHandledResponse)

/-- A codec whose `NewTokenFromMap` refuses every query. -/
def refusingCodec : TokenCodec where
  NewTokenFromString := sampleCodec.NewTokenFromString
  NewTokenFromMap := fun _ => .error (errors.New "no user")
  RequestId := sampleCodec.RequestId

/-- The token of the user `u` for the resource `c1` of type `img-x`. -/
def sampleToken : TokenData := ⟨"u", "c1", "img-x"⟩

/-- An unmarshalling for the evaluations: the object without members leaves the target as it
is, as every unmarshalling into a struct does; no other value is known to it. -/
def unmarshalEmptyObject {α : Type} (v : List Byte) (target : α) : Except GoError α :=
  if v = [123, 125] then .ok target
  else .error (errors.New "json: cannot unmarshal value")

/-- A payload validation that accepts every payload. -/
def acceptingCheck : extendedCreateKeysData → Option GoError := fun _ => none

/-- The request of a container action for the segment `tok-u`. -/
def actionRequest (action : String) : rest.Request :=
  ⟨⟨[], none⟩, [("token", "tok-u"), ("action", action)]⟩

/-- The body of 102401 bytes made of the object `{}` and 102399 spaces. -/
def paddedBody : List Byte := 123 :: 125 :: List.replicate 102399 32

/-- The body of 102401 bytes made of a string literal that is not closed: a quotation mark and
102400 letters `a`. -/
def longStringBody : List Byte := 34 :: List.replicate 102400 97

/-! ## The handler adapter: theorems -/

/-- The run of the handler once the token is extracted, the user is not empty and the job
constructor has returned without error: the call of the constructor, the call of `Dispatch`, and
what the result of `Dispatch` asks for. -/
theorem JobRestHandler_run_dispatch (codec : TokenCodec) (ran : GoError) (dispatcher : Dispatcher)
    (handler : JobHandler) (w : rest.ResponseWriter) (r : rest.Request) (token : TokenData)
    (id : RequestIdentifier) (job : Option Job)
    (hx : extractToken codec (r.PathParam "token") r.Request = ⟨some token, id, none⟩)
    (hu : token.U ≠ "") (hh : handler id token w r = (job, none)) :
    JobRestHandler codec ran dispatcher handler w r =
      .callHandler id token :: .callDispatch job ::
        (if (dispatcher.Dispatch job).2 = some ran then
          [.httpError ran.Error http.StatusNoContent]
        else match (dispatcher.Dispatch job).2 with
          | some e => serveRequestError ⟨e, e.Error, http.StatusServiceUnavailable⟩
          | none => [.receive (dispatcher.Dispatch job).1]) := by
  simp only [JobRestHandler, hx, hu, hh, if_false]

/-- C1: when the job constructor returns a job, the result of `dispatcher.Dispatch(job)` is
mapped as follows. `ErrRanToCompletion`: one response, status 204, the message the text of that
error, and no wait. Any other error `e`: one response, status 503, the message the text of `e`,
and no wait. No error: no response, and the handler waits on the returned channel as its last
step. -/
theorem JobRestHandler_dispatch_outcome (codec : TokenCodec) (ran : GoError)
    (dispatcher : Dispatcher) (handler : JobHandler) (w : rest.ResponseWriter)
    (r : rest.Request) (token : TokenData) (id : RequestIdentifier) (job : Option Job)
    (hx : extractToken codec (r.PathParam "token") r.Request = ⟨some token, id, none⟩)
    (hu : token.U ≠ "") (hh : handler id token w r = (job, none)) :
    (∀ wait, dispatcher.Dispatch job = (wait, some ran) →
      responses (JobRestHandler codec ran dispatcher handler w r) = [(ran.Error, 204)] ∧
      waits (JobRestHandler codec ran dispatcher handler w r) = false) ∧
    (∀ wait e, dispatcher.Dispatch job = (wait, some e) → e ≠ ran →
      responses (JobRestHandler codec ran dispatcher handler w r) = [(e.Error, 503)] ∧
      waits (JobRestHandler codec ran dispatcher handler w r) = false) ∧
    (∀ wait, dispatcher.Dispatch job = (wait, none) →
      responses (JobRestHandler codec ran dispatcher handler w r) = [] ∧
      JobRestHandler codec ran dispatcher handler w r =
        [.callHandler id token, .callDispatch job, .receive wait]) := by
  rw [JobRestHandler_run_dispatch codec ran dispatcher handler w r token id job hx hu hh]
  refine ⟨?_, ?_, ?_⟩
  · intro wait hd
    simp [hd, responses, waits, http.StatusNoContent]
  · intro wait e hd hne
    simp [hd, hne, responses, waits, serveRequestError, http.StatusServiceUnavailable]
  · intro wait hd
    simp [hd, responses]

/-- C1, evaluated: a build job the dispatcher reports as run to completion gives the single
response 204, one it refuses the single response 503, one it accepts no response and a wait. -/
theorem JobRestHandler_dispatch_outcome_witness :
    (responses (JobRestHandler sampleCodec sampleErrRanToCompletion sampleDispatcher
        ApiPutBuildImageAction sampleWriter (buildRequest "done")) = [("ran to completion", 204)] ∧
      waits (JobRestHandler sampleCodec sampleErrRanToCompletion sampleDispatcher
        ApiPutBuildImageAction sampleWriter (buildRequest "done")) = false) ∧
    (responses (JobRestHandler sampleCodec sampleErrRanToCompletion sampleDispatcher
        ApiPutBuildImageAction sampleWriter (buildRequest "busy")) = [("queue is full", 503)] ∧
      waits (JobRestHandler sampleCodec sampleErrRanToCompletion sampleDispatcher
        ApiPutBuildImageAction sampleWriter (buildRequest "busy")) = false) ∧
    (responses (JobRestHandler sampleCodec sampleErrRanToCompletion sampleDispatcher
        ApiPutBuildImageAction sampleWriter (buildRequest "u")) = [] ∧
      JobRestHandler sampleCodec sampleErrRanToCompletion sampleDispatcher
        ApiPutBuildImageAction sampleWriter (buildRequest "u") =
        [.callHandler [115, 114, 99] ⟨"u", "src", "base"⟩,
         .callDispatch (some (.buildImageJobRequest [115, 114, 99] "src" "base" "u"
           (.framework sampleWriter))),
         .receive 7]) :=
  ⟨(JobRestHandler_dispatch_outcome sampleCodec sampleErrRanToCompletion sampleDispatcher
      ApiPutBuildImageAction sampleWriter (buildRequest "done") ⟨"done", "src", "base"⟩
      [115, 114, 99]
      (some (.buildImageJobRequest [115, 114, 99] "src" "base" "done" (.framework sampleWriter)))
      (by decide) (by decide) (by decide)).1 0 (by decide),
   (JobRestHandler_dispatch_outcome sampleCodec sampleErrRanToCompletion sampleDispatcher
      ApiPutBuildImageAction sampleWriter (buildRequest "busy") ⟨"busy", "src", "base"⟩
      [115, 114, 99]
      (some (.buildImageJobRequest [115, 114, 99] "src" "base" "busy" (.framework sampleWriter)))
      (by decide) (by decide) (by decide)).2.1 0 (errors.New "queue is full") (by decide)
      (by decide),
   (JobRestHandler_dispatch_outcome sampleCodec sampleErrRanToCompletion sampleDispatcher
      ApiPutBuildImageAction sampleWriter (buildRequest "u") ⟨"u", "src", "base"⟩
      [115, 114, 99]
      (some (.buildImageJobRequest [115, 114, 99] "src" "base" "u" (.framework sampleWriter)))
      (by decide) (by decide) (by decide)).2.2 7 (by decide)⟩

/-- What `extractToken` returns once the segment has parsed to `token`: the token with its
request id, or the token with the error of the derivation, status 400. -/
theorem extractToken_of_parsed (codec : TokenCodec) (r : rest.Request) (token : TokenData)
    (hp : parsedToken codec r = .ok token) :
    extractToken codec (r.PathParam "token") r.Request =
      match codec.RequestId token with
      | .error err =>
        ⟨some token, [],
          some ⟨err, "Token is missing data: " ++ err.Error, http.StatusBadRequest⟩⟩
      | .ok i => ⟨some token, i, none⟩ := by
  unfold parsedToken at hp
  unfold extractToken
  by_cases hs : r.PathParam "token" = "__test__"
  · simp only [hs, if_true] at hp ⊢
    rw [hp]
  · simp only [hs, if_false] at hp ⊢
    rw [hp]

/-- C2, on the code: when the segment parses to a token but the request id cannot be derived,
`extractToken` does return the error with status 400 and the message `Token is missing data: `
followed by the text of the cause, but the handler does not serve that error: it logs it and
answers 403 with the fixed message of a missing token. -/
theorem JobRestHandler_missing_request_id (codec : TokenCodec) (ran : GoError)
    (dispatcher : Dispatcher) (handler : JobHandler) (w : rest.ResponseWriter)
    (r : rest.Request) (token : TokenData) (e : GoError)
    (hp : parsedToken codec r = .ok token) (hid : codec.RequestId token = .error e) :
    (extractToken codec (r.PathParam "token") r.Request).rerr =
      some ⟨e, "Token is missing data: " ++ e.Error, 400⟩ ∧
    responses (JobRestHandler codec ran dispatcher handler w r) =
      [("Token is required - pass /token/<token>/<path>", 403)] := by
  have hx := extractToken_of_parsed codec r token hp
  rw [hid] at hx
  simp [JobRestHandler, hx, responses, http.StatusBadRequest, http.StatusForbidden]

/-- C2, evaluated: the token of the segment `tok-noid` has a user and no request id; the answer
is 403 and not 400. -/
theorem JobRestHandler_missing_request_id_witness :
    (extractToken sampleCodec ((sampleRequest "tok-noid" [] none).PathParam "token")
        (sampleRequest "tok-noid" [] none).Request).rerr =
      some ⟨errors.New "no request id", "Token is missing data: no request id", 400⟩ ∧
    responses (JobRestHandler sampleCodec sampleErrRanToCompletion sampleDispatcher
      ApiPutBuildImageAction sampleWriter (sampleRequest "tok-noid" [] none)) =
      [("Token is required - pass /token/<token>/<path>", 403)] :=
  JobRestHandler_missing_request_id sampleCodec sampleErrRanToCompletion sampleDispatcher
    ApiPutBuildImageAction sampleWriter (sampleRequest "tok-noid" [] none) ⟨"u", "", "img-x"⟩
    (errors.New "no request id") rfl rfl

/-- C3 as stated fails: the segment `tok-anon-noid` parses to a token with an empty user from
which no request id derives, and the answer is 403 with the message of a missing token, not
400 with the message about the user. -/
theorem JobRestHandler_empty_user_counterexample :
    parsedToken sampleCodec (sampleRequest "tok-anon-noid" [] none) = .ok ⟨"", "", "img-x"⟩ ∧
    responses (JobRestHandler sampleCodec sampleErrRanToCompletion sampleDispatcher
      ApiPutBuildImageAction sampleWriter (sampleRequest "tok-anon-noid" [] none)) =
      [("Token is required - pass /token/<token>/<path>", 403)] ∧
    responses (JobRestHandler sampleCodec sampleErrRanToCompletion sampleDispatcher
      ApiPutBuildImageAction sampleWriter (sampleRequest "tok-anon-noid" [] none)) ≠
      [("All requests must be associated with a user", 400)] :=
  ⟨rfl, by decide, by decide⟩

/-- C3, amended: when the segment parses to a token with an empty user and the request id
derives, the handler writes the single response 400 `All requests must be associated with a
user`, whatever the locator and the type of the token are; and with an empty user, whatever the
derivation yields, neither the job constructor nor the dispatcher is called. -/
theorem JobRestHandler_empty_user (codec : TokenCodec) (ran : GoError)
    (dispatcher : Dispatcher) (handler : JobHandler) (w : rest.ResponseWriter)
    (r : rest.Request) (token : TokenData)
    (hp : parsedToken codec r = .ok token) (hu : token.U = "") :
    (∀ i, codec.RequestId token = .ok i →
      JobRestHandler codec ran dispatcher handler w r =
        [.httpError "All requests must be associated with a user" 400]) ∧
    callsHandler (JobRestHandler codec ran dispatcher handler w r) = false ∧
    callsDispatch (JobRestHandler codec ran dispatcher handler w r) = false := by
  have hx := extractToken_of_parsed codec r token hp
  refine ⟨?_, ?_, ?_⟩
  · intro i hi
    rw [hi] at hx
    simp [JobRestHandler, hx, hu, http.StatusBadRequest]
  · cases hi : codec.RequestId token <;> rw [hi] at hx <;>
      simp [JobRestHandler, hx, hu, callsHandler]
  · cases hi : codec.RequestId token <;> rw [hi] at hx <;>
      simp [JobRestHandler, hx, hu, callsDispatch]

/-- C3, amended, evaluated on the segment `tok-anon`. -/
theorem JobRestHandler_empty_user_witness :
    JobRestHandler sampleCodec sampleErrRanToCompletion sampleDispatcher
      ApiPutBuildImageAction sampleWriter (sampleRequest "tok-anon" [] none) =
      [.httpError "All requests must be associated with a user" 400] :=
  (JobRestHandler_empty_user sampleCodec sampleErrRanToCompletion sampleDispatcher
    ApiPutBuildImageAction sampleWriter (sampleRequest "tok-anon" [] none) ⟨"", "c1", "img-x"⟩
    rfl (by decide)).1 [99, 49] rfl

/-- C4: with the token extracted and a user, an error `e` of the job constructor other than
`ErrHandledResponse` gives exactly one response, 400 with the message `Invalid request: `, the
text of `e` and a newline; `ErrHandledResponse` gives no response; `Dispatch` is called in
neither case. -/
theorem JobRestHandler_handler_error (codec : TokenCodec) (ran : GoError)
    (dispatcher : Dispatcher) (handler : JobHandler) (w : rest.ResponseWriter)
    (r : rest.Request) (token : TokenData) (id : RequestIdentifier) (job : Option Job)
    (e : GoError)
    (hx : extractToken codec (r.PathParam "token") r.Request = ⟨some token, id, none⟩)
    (hu : token.U ≠ "") (hh : handler id token w r = (job, some e)) :
    (e ≠ ErrHandledResponse →
      responses (JobRestHandler codec ran dispatcher handler w r) =
        [("Invalid request: " ++ e.Error ++ "\n", 400)]) ∧
    (e = ErrHandledResponse →
      responses (JobRestHandler codec ran dispatcher handler w r) = []) ∧
    callsDispatch (JobRestHandler codec ran dispatcher handler w r) = false := by
  refine ⟨?_, ?_, ?_⟩
  · intro hne
    simp [JobRestHandler, hx, hu, hh, hne, responses, http.StatusBadRequest]
  · intro he
    simp [JobRestHandler, hx, hu, hh, he, responses]
  · by_cases he : e = ErrHandledResponse <;>
      simp [JobRestHandler, hx, hu, hh, he, callsDispatch]

/-- C4, evaluated: a container action without a valid action is answered 400 with the text of
the constructor's error, and a constructor that returns `ErrHandledResponse` leaves the handler
without a response. -/
theorem JobRestHandler_handler_error_witness :
    responses (JobRestHandler sampleCodec sampleErrRanToCompletion sampleDispatcher
      (ApiPutContainerAction sampleNewIdentifier) sampleWriter (sampleRequest "tok-u" [] none)) =
      [("Invalid request: You must provide a valid action for this container to take\n", 400)] ∧
    responses (JobRestHandler sampleCodec sampleErrRanToCompletion sampleDispatcher
      handledHandler sampleWriter (sampleRequest "tok-u" [] none)) = [] :=
  ⟨(JobRestHandler_handler_error sampleCodec sampleErrRanToCompletion sampleDispatcher
      (ApiPutContainerAction sampleNewIdentifier) sampleWriter (sampleRequest "tok-u" [] none)
      ⟨"u", "c1", "img-x"⟩ [99, 49] none
      (errors.New "You must provide a valid action for this container to take")
      (by decide) (by decide) (by decide)).1 (by decide),
   (JobRestHandler_handler_error sampleCodec sampleErrRanToCompletion sampleDispatcher
      handledHandler sampleWriter (sampleRequest "tok-u" [] none)
      ⟨"u", "c1", "img-x"⟩ [99, 49] none ErrHandledResponse
      (by decide) (by decide) (by decide)).2.1 rfl⟩

/-- The shapes a run of the handler can have. -/
theorem JobRestHandler_shape (codec : TokenCodec) (ran : GoError) (dispatcher : Dispatcher)
    (handler : JobHandler) (w : rest.ResponseWriter) (r : rest.Request) :
    (∃ errt, JobRestHandler codec ran dispatcher handler w r =
      [.logPrintln errt, .httpError "Token is required - pass /token/<token>/<path>" 403]) ∨
    JobRestHandler codec ran dispatcher handler w r = [.nilDereference] ∨
    JobRestHandler codec ran dispatcher handler w r =
      [.httpError "All requests must be associated with a user" 400] ∨
    (∃ id token, JobRestHandler codec ran dispatcher handler w r = [.callHandler id token]) ∨
    (∃ id token m, JobRestHandler codec ran dispatcher handler w r =
      [.callHandler id token, .httpError m 400]) ∨
    (∃ id token job m, JobRestHandler codec ran dispatcher handler w r =
      [.callHandler id token, .callDispatch job, .httpError m 204]) ∨
    (∃ id token job m e, JobRestHandler codec ran dispatcher handler w r =
      [.callHandler id token, .callDispatch job, .logPrint m e, .httpError m 503]) ∨
    (∃ id token job wait, JobRestHandler codec ran dispatcher handler w r =
      [.callHandler id token, .callDispatch job, .receive wait]) := by
  simp only [JobRestHandler]
  rcases hr : (extractToken codec (r.PathParam "token") r.Request).rerr with _ | errt
  · rcases ht : (extractToken codec (r.PathParam "token") r.Request).token with _ | token
    · simp
    · by_cases hu : token.U = ""
      · simp [hu, http.StatusBadRequest]
      · rcases hh : handler (extractToken codec (r.PathParam "token") r.Request).id token w r
          with ⟨job, errh⟩
        cases errh with
        | some e =>
          by_cases he : e = ErrHandledResponse <;> simp [hu, hh, he, http.StatusBadRequest]
        | none =>
          rcases hd : dispatcher.Dispatch job with ⟨wait, errd⟩
          by_cases hran : errd = some ran
          · simp [hu, hh, hd, hran, http.StatusNoContent]
          · cases errd with
            | some e =>
              simp [hu, hh, hd, hran, serveRequestError, http.StatusServiceUnavailable]
            | none => simp [hu, hh, hd]
  · simp [http.StatusForbidden]

/-- C5: in every run, whatever the codec, the constructor and the dispatcher do, the gateway
writes at most one response, its status is 204, 400, 403 or 503, and it writes none in a run in
which it waits on the completion channel, which is what it does whenever `Dispatch` accepted the
job. -/
theorem JobRestHandler_responses (codec : TokenCodec) (ran : GoError) (dispatcher : Dispatcher)
    (handler : JobHandler) (w : rest.ResponseWriter) (r : rest.Request) :
    (responses (JobRestHandler codec ran dispatcher handler w r)).length ≤ 1 ∧
    (∀ p ∈ responses (JobRestHandler codec ran dispatcher handler w r),
      p.2 = 204 ∨ p.2 = 400 ∨ p.2 = 403 ∨ p.2 = 503) ∧
    (waits (JobRestHandler codec ran dispatcher handler w r) = true →
      responses (JobRestHandler codec ran dispatcher handler w r) = []) ∧
    (∀ token id job wait,
      extractToken codec (r.PathParam "token") r.Request = ⟨some token, id, none⟩ →
      token.U ≠ "" → handler id token w r = (job, none) →
      dispatcher.Dispatch job = (wait, none) →
      waits (JobRestHandler codec ran dispatcher handler w r) = true ∧
      responses (JobRestHandler codec ran dispatcher handler w r) = []) := by
  refine ⟨?_, ?_, ?_, ?_⟩
  · rcases JobRestHandler_shape codec ran dispatcher handler w r with
      ⟨_, h⟩ | h | h | ⟨_, _, h⟩ | ⟨_, _, _, h⟩ | ⟨_, _, _, _, h⟩ | ⟨_, _, _, _, _, h⟩ |
      ⟨_, _, _, _, h⟩ <;> rw [h] <;> simp [responses]
  · rcases JobRestHandler_shape codec ran dispatcher handler w r with
      ⟨_, h⟩ | h | h | ⟨_, _, h⟩ | ⟨_, _, _, h⟩ | ⟨_, _, _, _, h⟩ | ⟨_, _, _, _, _, h⟩ |
      ⟨_, _, _, _, h⟩ <;> rw [h] <;> simp [responses]
  · rcases JobRestHandler_shape codec ran dispatcher handler w r with
      ⟨_, h⟩ | h | h | ⟨_, _, h⟩ | ⟨_, _, _, h⟩ | ⟨_, _, _, _, h⟩ | ⟨_, _, _, _, _, h⟩ |
      ⟨_, _, _, _, h⟩ <;> rw [h] <;> simp [responses, waits]
  · intro token id job wait hx hu hh hd
    rw [JobRestHandler_run_dispatch codec ran dispatcher handler w r token id job hx hu hh]
    simp [hd, responses, waits]

/-- C5, evaluated: an accepted build job leaves the gateway without a response of its own. -/
theorem JobRestHandler_responses_witness :
    waits (JobRestHandler sampleCodec sampleErrRanToCompletion sampleDispatcher
      ApiPutBuildImageAction sampleWriter (buildRequest "u")) = true ∧
    responses (JobRestHandler sampleCodec sampleErrRanToCompletion sampleDispatcher
      ApiPutBuildImageAction sampleWriter (buildRequest "u")) = [] :=
  (JobRestHandler_responses sampleCodec sampleErrRanToCompletion sampleDispatcher
    ApiPutBuildImageAction sampleWriter (buildRequest "u")).2.2.2 ⟨"u", "src", "base"⟩
    [115, 114, 99]
    (some (.buildImageJobRequest [115, 114, 99] "src" "base" "u" (.framework sampleWriter)))
    7 (by decide) (by decide) (by decide) (by decide)

/-! ## The token extraction: theorems -/

/-- C7 as stated fails: on the segment `__test__` the token is built from the query parameters
and returned with its request id and without error. -/
theorem extractToken_test_segment_counterexample :
    extractToken sampleCodec "__test__" ⟨[("U", ["u"]), ("R", ["a/b"]), ("T", ["text"])], none⟩ =
      ⟨some ⟨"u", "a/b", "text"⟩, [97, 47, 98], none⟩ := by
  decide

/-- C7, amended: on the segment `__test__` the token is built from the query parameters on
every call. When `NewTokenFromMap` fails the result is its error with the message
`Invalid test query: ...` and status 403, without token; when it returns a token `t` the
result is `t` with its request id and no error, or `t` with the error of the derivation and
status 400. `NewTokenFromString` plays no part. -/
theorem extractToken_test_segment (codec : TokenCodec) (r : http.Request) :
    (∀ err, codec.NewTokenFromMap r.Query = .error err →
      extractToken codec "__test__" r =
        ⟨none, [], some ⟨err, "Invalid test query: " ++ err.Error, 403⟩⟩) ∧
    (∀ t i, codec.NewTokenFromMap r.Query = .ok t → codec.RequestId t = .ok i →
      extractToken codec "__test__" r = ⟨some t, i, none⟩) ∧
    (∀ t e, codec.NewTokenFromMap r.Query = .ok t → codec.RequestId t = .error e →
      extractToken codec "__test__" r =
        ⟨some t, [], some ⟨e, "Token is missing data: " ++ e.Error, 400⟩⟩) ∧
    (∀ f, extractToken ⟨f, codec.NewTokenFromMap, codec.RequestId⟩ "__test__" r =
      extractToken codec "__test__" r) := by
  refine ⟨?_, ?_, ?_, ?_⟩
  · intro err h
    simp [extractToken, h, http.StatusForbidden]
  · intro t i h hi
    simp [extractToken, h, hi]
  · intro t e h hi
    simp [extractToken, h, hi, http.StatusBadRequest]
  · intro f
    simp [extractToken]

/-- C7, amended, evaluated: a query that gives a token, one whose token has no request id, and
a codec that refuses the query. -/
theorem extractToken_test_segment_witness :
    extractToken refusingCodec "__test__" ⟨[], none⟩ =
      ⟨none, [], some ⟨errors.New "no user", "Invalid test query: no user", 403⟩⟩ ∧
    extractToken sampleCodec "__test__" ⟨[("U", ["u"]), ("R", ["c1"])], none⟩ =
      ⟨some ⟨"u", "c1", ""⟩, [99, 49], none⟩ ∧
    extractToken sampleCodec "__test__" ⟨[("U", ["u"])], none⟩ =
      ⟨some ⟨"u", "", ""⟩, [],
        some ⟨errors.New "no request id", "Token is missing data: no request id", 400⟩⟩ :=
  ⟨(extractToken_test_segment refusingCodec ⟨[], none⟩).1 (errors.New "no user") rfl,
   (extractToken_test_segment sampleCodec ⟨[("U", ["u"]), ("R", ["c1"])], none⟩).2.1
      ⟨"u", "c1", ""⟩ [99, 49] rfl rfl,
   (extractToken_test_segment sampleCodec ⟨[("U", ["u"])], none⟩).2.2.1
      ⟨"u", "", ""⟩ (errors.New "no request id") rfl rfl⟩

/-! ## The job constructors: theorems -/

/-- C8 as stated fails: the get-content job stores the framework sink `w`, not the raw sink
`w.ResponseWriter`. -/
theorem ApiGetContent_sink_counterexample :
    ApiGetContent [1] ⟨"u", "a/b", "text"⟩ sampleWriter
        ⟨⟨[], none⟩, [("token", "tok"), ("*", "readme.md")]⟩ =
      (some (.contentJobRequest [1] "text" "a/b" "readme.md" (.framework sampleWriter)), none) ∧
    (Job.contentJobRequest [1] "text" "a/b" "readme.md" (.framework sampleWriter)).sink ≠
      .raw sampleWriter.ResponseWriter ∧
    (Job.contentJobRequest [1] "text" "a/b" "readme.md" (.framework sampleWriter)).sink.isRaw =
      false := by
  decide

/-- C8, amended: the sink stored in the job is the raw HTTP sink `w.ResponseWriter` for the
container-log job only; every other constructor, `ApiGetContent` among them, stores the
framework sink `w`. -/
theorem job_sink_by_constructor
    (NewIdentifier : String → Except GoError Identifier)
    (unmarshalC : List Byte → extendedCreateContainerData →
      Except GoError extendedCreateContainerData)
    (unmarshalK : List Byte → extendedCreateKeysData → Except GoError extendedCreateKeysData)
    (Check : extendedCreateKeysData → Option GoError)
    (reqid : RequestIdentifier) (token : TokenData) (w : rest.ResponseWriter)
    (r : rest.Request) (j : Job) (e : Option GoError) :
    (ApiGetContainerLog NewIdentifier reqid token w r = (some j, e) →
      j.sink = .raw w.ResponseWriter ∧ j.sink.isRaw = true) ∧
    (ApiGetContent reqid token w r = (some j, e) →
      j.sink = .framework w ∧ j.sink.isRaw = false) ∧
    (ApiPutContainer NewIdentifier unmarshalC reqid token w r = (some j, e) →
      j.sink = .framework w ∧ j.sink.isRaw = false) ∧
    (ApiPutKeys unmarshalK Check reqid token w r = (some j, e) →
      j.sink = .framework w ∧ j.sink.isRaw = false) ∧
    (ApiPutRepository NewIdentifier reqid token w r = (some j, e) →
      j.sink = .framework w ∧ j.sink.isRaw = false) ∧
    (ApiPutContainerAction NewIdentifier reqid token w r = (some j, e) →
      j.sink = .framework w ∧ j.sink.isRaw = false) ∧
    (ApiPutBuildImageAction reqid token w r = (some j, e) →
      j.sink = .framework w ∧ j.sink.isRaw = false) := by
  refine ⟨?_, ?_, ?_, ?_, ?_, ?_, ?_⟩
  · unfold ApiGetContainerLog
    split <;> intro h <;> simp only [Prod.mk.injEq, Option.some.injEq] at h
    · exact absurd h.1 (by simp)
    · rw [← h.1]; exact ⟨rfl, rfl⟩
  · unfold ApiGetContent
    split_ifs <;> intro h <;> simp only [Prod.mk.injEq, Option.some.injEq] at h
    · exact absurd h.1 (by simp)
    · exact absurd h.1 (by simp)
    · rw [← h.1]; exact ⟨rfl, rfl⟩
  · unfold ApiPutContainer
    intro h
    split at h
    · simp at h
    · split_ifs at h
      · simp at h
      · simp only at h
        split at h
        · simp at h
        · simp only [Prod.mk.injEq, Option.some.injEq] at h
          rw [← h.1]; exact ⟨rfl, rfl⟩
  · unfold ApiPutKeys
    intro h
    simp only at h
    split at h
    · simp at h
    · split at h
      · simp at h
      · simp only [Prod.mk.injEq, Option.some.injEq] at h
        rw [← h.1]; exact ⟨rfl, rfl⟩
  · unfold ApiPutRepository
    split <;> intro h <;> simp only [Prod.mk.injEq, Option.some.injEq] at h
    · exact absurd h.1 (by simp)
    · rw [← h.1]; exact ⟨rfl, rfl⟩
  · unfold ApiPutContainerAction
    intro h
    simp only at h
    split at h
    · simp at h
    · split_ifs at h
      · simp only [Prod.mk.injEq, Option.some.injEq] at h
        rw [← h.1]; exact ⟨rfl, rfl⟩
      · simp only [Prod.mk.injEq, Option.some.injEq] at h
        rw [← h.1]; exact ⟨rfl, rfl⟩
      · simp at h
  · unfold ApiPutBuildImageAction
    split_ifs <;> intro h <;> simp only [Prod.mk.injEq, Option.some.injEq] at h
    · exact absurd h.1 (by simp)
    · exact absurd h.1 (by simp)
    · rw [← h.1]; exact ⟨rfl, rfl⟩

/-- C8, amended, evaluated: the jobs of the eight kinds for the token of user `u`, with their
sinks. -/
theorem job_sink_by_constructor_witness :
    (Job.containerLogJobRequest [1] "c1" "u" (.raw sampleWriter.ResponseWriter)).sink =
      .raw sampleWriter.ResponseWriter ∧
    (Job.contentJobRequest [1] "img-x" "c1" "" (.framework sampleWriter)).sink =
      .framework sampleWriter ∧
    (Job.createContainerJobRequest [1] "c1" "u" "img-x" (.framework sampleWriter)
      ⟨some [], []⟩).sink = .framework sampleWriter ∧
    (Job.createKeysJobRequest [1] "u" (.framework sampleWriter) ⟨[]⟩).sink =
      .framework sampleWriter ∧
    (Job.createRepositoryJobRequest [1] "c1" "u" "ccoleman/githost" "img-x"
      (.framework sampleWriter)).sink = .framework sampleWriter ∧
    (Job.startedContainerStateJobRequest [1] "c1" "u" (.framework sampleWriter)).sink =
      .framework sampleWriter ∧
    (Job.stoppedContainerStateJobRequest [1] "c1" "u" (.framework sampleWriter)).sink =
      .framework sampleWriter ∧
    (Job.buildImageJobRequest [1] "c1" "img-x" "u" (.framework sampleWriter)).sink =
      .framework sampleWriter :=
  ⟨((job_sink_by_constructor sampleNewIdentifier unmarshalEmptyObject unmarshalEmptyObject
      acceptingCheck [1] sampleToken sampleWriter (sampleRequest "tok-u" [] none)
      (.containerLogJobRequest [1] "c1" "u" (.raw sampleWriter.ResponseWriter)) none).1
      (by decide)).1,
   ((job_sink_by_constructor sampleNewIdentifier unmarshalEmptyObject unmarshalEmptyObject
      acceptingCheck [1] sampleToken sampleWriter (sampleRequest "tok-u" [] none)
      (.contentJobRequest [1] "img-x" "c1" "" (.framework sampleWriter)) none).2.1
      (by decide)).1,
   ((job_sink_by_constructor sampleNewIdentifier unmarshalEmptyObject unmarshalEmptyObject
      acceptingCheck [1] sampleToken sampleWriter (sampleRequest "tok-u" [] none)
      (.createContainerJobRequest [1] "c1" "u" "img-x" (.framework sampleWriter) ⟨some [], []⟩)
      none).2.2.1 (by decide)).1,
   ((job_sink_by_constructor sampleNewIdentifier unmarshalEmptyObject unmarshalEmptyObject
      acceptingCheck [1] sampleToken sampleWriter (sampleRequest "tok-u" [] none)
      (.createKeysJobRequest [1] "u" (.framework sampleWriter) ⟨[]⟩) none).2.2.2.1
      (by decide)).1,
   ((job_sink_by_constructor sampleNewIdentifier unmarshalEmptyObject unmarshalEmptyObject
      acceptingCheck [1] sampleToken sampleWriter (sampleRequest "tok-u" [] none)
      (.createRepositoryJobRequest [1] "c1" "u" "ccoleman/githost" "img-x"
        (.framework sampleWriter)) none).2.2.2.2.1 (by decide)).1,
   ((job_sink_by_constructor sampleNewIdentifier unmarshalEmptyObject unmarshalEmptyObject
      acceptingCheck [1] sampleToken sampleWriter
      ⟨⟨[], none⟩, [("token", "tok-u"), ("action", "started")]⟩
      (.startedContainerStateJobRequest [1] "c1" "u" (.framework sampleWriter)) none).2.2.2.2.2.1
      (by decide)).1,
   ((job_sink_by_constructor sampleNewIdentifier unmarshalEmptyObject unmarshalEmptyObject
      acceptingCheck [1] sampleToken sampleWriter
      ⟨⟨[], none⟩, [("token", "tok-u"), ("action", "stopped")]⟩
      (.stoppedContainerStateJobRequest [1] "c1" "u" (.framework sampleWriter)) none).2.2.2.2.2.1
      (by decide)).1,
   ((job_sink_by_constructor sampleNewIdentifier unmarshalEmptyObject unmarshalEmptyObject
      acceptingCheck [1] sampleToken sampleWriter (sampleRequest "tok-u" [] none)
      (.buildImageJobRequest [1] "c1" "img-x" "u" (.framework sampleWriter)) none).2.2.2.2.2.2
      (by decide)).1⟩

/-- C10: with a locator that is a valid identifier, `ApiPutContainerAction` returns the
container-started job for the action `started` and the container-stopped job for the action
`stopped`, each with the request id, the gear id of the locator and the user of the token, and
for every other action no job and the error
`You must provide a valid action for this container to take`. -/
theorem ApiPutContainerAction_by_action (NewIdentifier : String → Except GoError Identifier)
    (reqid : RequestIdentifier) (token : TokenData) (w : rest.ResponseWriter)
    (r : rest.Request) (gearId : Identifier)
    (hg : NewIdentifier token.ResourceLocator = .ok gearId) :
    (r.PathParam "action" = "started" →
      ApiPutContainerAction NewIdentifier reqid token w r =
        (some (.startedContainerStateJobRequest reqid gearId token.U (.framework w)), none)) ∧
    (r.PathParam "action" = "stopped" →
      ApiPutContainerAction NewIdentifier reqid token w r =
        (some (.stoppedContainerStateJobRequest reqid gearId token.U (.framework w)), none)) ∧
    (r.PathParam "action" ≠ "started" → r.PathParam "action" ≠ "stopped" →
      ApiPutContainerAction NewIdentifier reqid token w r =
        (none, some (errors.New "You must provide a valid action for this container to take")) ∧
      (errors.New "You must provide a valid action for this container to take").Error =
        "You must provide a valid action for this container to take") := by
  refine ⟨?_, ?_, ?_⟩
  · intro ha
    simp [ApiPutContainerAction, hg, ha]
  · intro ha
    simp [ApiPutContainerAction, hg, ha]
  · intro h1 h2
    simp [ApiPutContainerAction, hg, h1, h2, errors.New, GoError.Error]

/-- C10, evaluated on the actions `started`, `stopped`, `paused` and the empty action. -/
theorem ApiPutContainerAction_by_action_witness :
    ApiPutContainerAction sampleNewIdentifier [1] sampleToken sampleWriter
        (actionRequest "started") =
      (some (.startedContainerStateJobRequest [1] "c1" "u" (.framework sampleWriter)), none) ∧
    ApiPutContainerAction sampleNewIdentifier [1] sampleToken sampleWriter
        (actionRequest "stopped") =
      (some (.stoppedContainerStateJobRequest [1] "c1" "u" (.framework sampleWriter)), none) ∧
    ApiPutContainerAction sampleNewIdentifier [1] sampleToken sampleWriter
        (actionRequest "paused") =
      (none, some (errors.New "You must provide a valid action for this container to take")) ∧
    ApiPutContainerAction sampleNewIdentifier [1] sampleToken sampleWriter
        (actionRequest "") =
      (none, some (errors.New "You must provide a valid action for this container to take")) :=
  ⟨(ApiPutContainerAction_by_action sampleNewIdentifier [1] sampleToken sampleWriter
      (actionRequest "started") "c1" rfl).1 (by decide),
   (ApiPutContainerAction_by_action sampleNewIdentifier [1] sampleToken sampleWriter
      (actionRequest "stopped") "c1" rfl).2.1 (by decide),
   ((ApiPutContainerAction_by_action sampleNewIdentifier [1] sampleToken sampleWriter
      (actionRequest "paused") "c1" rfl).2.2 (by decide) (by decide)).1,
   ((ApiPutContainerAction_by_action sampleNewIdentifier [1] sampleToken sampleWriter
      (actionRequest "") "c1" rfl).2.2 (by decide) (by decide)).1⟩

/-- The decoder reports the end of the input on an empty stream, whatever the payload type. -/
theorem json_Decode_nil {α : Type} (unmarshal : List Byte → α → Except GoError α) (v : α) :
    json.Decode unmarshal [] v = .error io.EOF := by
  rfl

/-- C9: a job returned by `ApiPutContainer` is a create-container job whose payload has a
`Ports` slice that is not `nil`; and when the body is absent, or empty, or the decoder reports
the end of the input, or the body decodes to a payload without ports, that slice is the empty
slice, of length 0. -/
theorem ApiPutContainer_ports (NewIdentifier : String → Except GoError Identifier)
    (unmarshal : List Byte → extendedCreateContainerData →
      Except GoError extendedCreateContainerData)
    (reqid : RequestIdentifier) (token : TokenData) (w : rest.ResponseWriter)
    (r : rest.Request) (j : Job) (e : Option GoError)
    (hj : ApiPutContainer NewIdentifier unmarshal reqid token w r = (some j, e)) :
    ∃ gearId data,
      j = .createContainerJobRequest reqid gearId token.U token.ResourceType (.framework w)
        data ∧
      data.Ports ≠ none ∧
      ((r.Body = none ∨ r.Body = some [] ∨
        (∃ body, r.Body = some body ∧ json.Decode unmarshal body ⟨none, []⟩ = .error io.EOF) ∨
        (∃ body d, r.Body = some body ∧ json.Decode unmarshal body ⟨none, []⟩ = .ok d ∧
          d.Ports = none)) →
        data.Ports = some [] ∧ (data.Ports.getD []).length = 0) := by
  unfold ApiPutContainer at hj
  split at hj
  · simp at hj
  · rename_i gearId _
    split_ifs at hj
    · simp at hj
    · simp only at hj
      split at hj
      · simp at hj
      · rename_i data hdec
        simp only [Prod.mk.injEq, Option.some.injEq] at hj
        refine ⟨gearId, _, hj.1.symm, ?_, ?_⟩
        · split_ifs <;> simp_all
        · intro hb
          have hp : data.Ports = none := by
            rcases hb with hb | hb | ⟨body, hb, hd⟩ | ⟨body, d, hb, hd, hnp⟩
            · rw [hb] at hdec
              simp only [Except.ok.injEq] at hdec
              rw [← hdec]
            · rw [hb] at hdec
              simp only [json_Decode_nil, ne_eq, not_true_eq_false, if_false,
                Except.ok.injEq] at hdec
              rw [← hdec]
            · rw [hb] at hdec
              simp only [hd, ne_eq, not_true_eq_false, if_false, Except.ok.injEq] at hdec
              rw [← hdec]
            · rw [hb] at hdec
              simp only [hd, Except.ok.injEq] at hdec
              rw [← hdec]
              exact hnp
          simp [hp]

/-- C9, evaluated on the body `{}`, with its hypotheses: the job has the empty sequence of
ports. -/
theorem ApiPutContainer_ports_witness :
    ApiPutContainer sampleNewIdentifier unmarshalEmptyObject [1] sampleToken sampleWriter
        (sampleRequest "tok-u" [] (some [123, 125])) =
      (some (.createContainerJobRequest [1] "c1" "u" "img-x" (.framework sampleWriter)
        ⟨some [], []⟩), none) ∧
    ∃ gearId data,
      Job.createContainerJobRequest [1] "c1" "u" "img-x" (.framework sampleWriter)
          ⟨some [], []⟩ =
        .createContainerJobRequest [1] gearId sampleToken.U sampleToken.ResourceType
          (.framework sampleWriter) data ∧
      data.Ports ≠ none ∧
      (((sampleRequest "tok-u" [] (some [123, 125])).Body = none ∨
        (sampleRequest "tok-u" [] (some [123, 125])).Body = some [] ∨
        (∃ body, (sampleRequest "tok-u" [] (some [123, 125])).Body = some body ∧
          json.Decode unmarshalEmptyObject body (⟨none, []⟩ : extendedCreateContainerData) =
            .error io.EOF) ∨
        (∃ body d, (sampleRequest "tok-u" [] (some [123, 125])).Body = some body ∧
          json.Decode unmarshalEmptyObject body (⟨none, []⟩ : extendedCreateContainerData) =
            .ok d ∧ d.Ports = none)) →
        data.Ports = some [] ∧ (data.Ports.getD []).length = 0) :=
  ⟨by decide,
   ApiPutContainer_ports sampleNewIdentifier unmarshalEmptyObject [1] sampleToken sampleWriter
    (sampleRequest "tok-u" [] (some [123, 125]))
    (.createContainerJobRequest [1] "c1" "u" "img-x" (.framework sampleWriter) ⟨some [], []⟩)
    none (by decide)⟩

/-! ## The cap on the body of put-keys: theorems -/

/-- C6 as stated fails: the body of 102401 bytes made of `{}` and spaces is longer than the
cap, yet `ApiPutKeys` returns no parse error: the bytes beyond the cap are dropped, the value
`{}` is decoded, and what is returned is decided by the validation of the payload alone, a job
when it accepts. -/
theorem ApiPutKeys_long_body_counterexample :
    paddedBody.length = 102401 ∧
    ApiPutKeys unmarshalEmptyObject acceptingCheck [1] sampleToken sampleWriter
        (sampleRequest "tok-u" [] (some paddedBody)) =
      (some (.createKeysJobRequest [1] "u" (.framework sampleWriter) ⟨[]⟩), none) ∧
    (∀ Check, ApiPutKeys unmarshalEmptyObject Check [1] sampleToken sampleWriter
        (sampleRequest "tok-u" [] (some paddedBody)) =
      match Check ⟨[]⟩ with
      | some err => (none, some err)
      | none => (some (.createKeysJobRequest [1] "u" (.framework sampleWriter) ⟨[]⟩), none)) := by
  refine ⟨?_, by decide, fun Check => rfl⟩
  unfold paddedBody
  rw [List.length_cons, List.length_cons, List.length_replicate]

/-- Inside a string literal the letters `a` do not end the value: when the input ends after
them the value is incomplete. -/
theorem readValueLoop_inString_replicate (buf : List Byte) (k n : Nat) :
    json.readValueLoop buf ⟨.stateInString, [], none⟩ n (List.replicate k 97) =
      if json.nonSpace buf then .error io.ErrUnexpectedEOF else .error io.EOF := by
  induction k generalizing n with
  | zero => rfl
  | succ k ih =>
    rw [List.replicate_succ]
    unfold json.readValueLoop
    exact ih (n + 1)

/-- After a quotation mark the scanner is inside a string literal. -/
theorem readValue_quote_cons (rest : List Byte) :
    json.readValue (34 :: rest) =
      json.readValueLoop (34 :: rest) ⟨.stateInString, [], none⟩ 1 rest := by
  rfl

/-- A string literal that is not closed is an incomplete value, however long it is. -/
theorem json_Decode_open_string {α : Type} (unmarshal : List Byte → α → Except GoError α)
    (v : α) (k : Nat) :
    json.Decode unmarshal (34 :: List.replicate k 97) v = .error io.ErrUnexpectedEOF := by
  have hn : json.nonSpace (34 :: List.replicate k 97) = true := by
    rfl
  unfold json.Decode
  rw [readValue_quote_cons, readValueLoop_inString_replicate, hn]
  rfl

/-- The first 102400 bytes of the string literal that is not closed are an incomplete value. -/
theorem json_Decode_longStringBody {α : Type} (unmarshal : List Byte → α → Except GoError α)
    (v : α) :
    json.Decode unmarshal (longStringBody.take 102400) v = .error io.ErrUnexpectedEOF := by
  have ht : longStringBody.take 102400 = 34 :: List.replicate 102399 97 := by
    unfold longStringBody
    rw [show (102400 : Nat) = 102399 + 1 from rfl, List.take_succ_cons, List.take_replicate,
      Nat.min_eq_left (Nat.le_succ 102399)]
  rw [ht]
  exact json_Decode_open_string unmarshal v 102399

/-- C6, amended: `ApiPutKeys` decodes the first 102400 bytes of the body and nothing else. Its
result on a body is its result on the first 102400 bytes of that body: the bytes beyond the cap
are dropped, they are not an error by themselves. It returns a parse error and no job when the
decoding of those first 102400 bytes fails with an error other than the end of the input, and it
returns a job when that decoding gives a payload the validation accepts. -/
theorem ApiPutKeys_body_cap
    (unmarshal : List Byte → extendedCreateKeysData → Except GoError extendedCreateKeysData)
    (Check : extendedCreateKeysData → Option GoError)
    (reqid : RequestIdentifier) (token : TokenData) (w : rest.ResponseWriter)
    (q : List (String × List String)) (pp : List (String × String)) (body : List Byte) :
    ApiPutKeys unmarshal Check reqid token w ⟨⟨q, some body⟩, pp⟩ =
      ApiPutKeys unmarshal Check reqid token w ⟨⟨q, some (body.take 102400)⟩, pp⟩ ∧
    (∀ err, json.Decode unmarshal (body.take 102400) ⟨[]⟩ = .error err → err ≠ io.EOF →
      ApiPutKeys unmarshal Check reqid token w ⟨⟨q, some body⟩, pp⟩ = (none, some err)) ∧
    (∀ d, json.Decode unmarshal (body.take 102400) ⟨[]⟩ = .ok d → Check d = none →
      ApiPutKeys unmarshal Check reqid token w ⟨⟨q, some body⟩, pp⟩ =
        (some (.createKeysJobRequest reqid token.U (.framework w) d), none)) := by
  refine ⟨?_, ?_, ?_⟩
  · simp only [ApiPutKeys, rest.Request.Body, io.LimitReader, List.take_take, min_self]
  · intro err hd hne
    simp [ApiPutKeys, rest.Request.Body, io.LimitReader, hd, hne]
  · intro d hd hc
    simp [ApiPutKeys, rest.Request.Body, io.LimitReader, hd, hc]

/-- C6, amended, evaluated: the string literal that the cap cuts is a parse error, and the
object `{}` followed by spaces beyond the cap is a job. -/
theorem ApiPutKeys_body_cap_witness :
    ApiPutKeys unmarshalEmptyObject acceptingCheck [1] sampleToken sampleWriter
        ⟨⟨[], some longStringBody⟩, []⟩ = (none, some io.ErrUnexpectedEOF) ∧
    ApiPutKeys unmarshalEmptyObject acceptingCheck [1] sampleToken sampleWriter
        ⟨⟨[], some paddedBody⟩, []⟩ =
      (some (.createKeysJobRequest [1] sampleToken.U (.framework sampleWriter) ⟨[]⟩), none) :=
  ⟨(ApiPutKeys_body_cap unmarshalEmptyObject acceptingCheck [1] sampleToken sampleWriter [] []
      longStringBody).2.1 io.ErrUnexpectedEOF (json_Decode_longStringBody _ _) (by decide),
   (ApiPutKeys_body_cap unmarshalEmptyObject acceptingCheck [1] sampleToken sampleWriter [] []
      paddedBody).2.2 ⟨[]⟩ rfl rfl⟩

end geard
